import Mathlib

/-!
Verification of the retrieval-fusion and multi-agent orchestration engine:
a shallow embedding of `src/onboarding-agentic-rag/src/core/orchestrator.py`
and `src/aviation-graph-rag/src/core/graph_rag.py`.

Python floats are modelled as `Rat` (all arithmetic the engine performs —
addition, division by small constants, `min`/`max` clamping, incremental
means — is exact on the rationals at the values exercised here).
External calls (the generation model, the agent registry, agent execution,
the retrieval adapters) are modelled as oracle inputs of type
`Except String _` / plain data: the embedding covers exactly the
coordination logic the repository implements around those calls.
Python string slicing `s[:n]` is codepoint-based and is modelled by
`List.take` on the string's character list.
-/

set_option allowUnsafeReducibility true in
attribute [semireducible] Rat.mul Rat.inv Rat.add Rat.sub Rat.div

/-- Decidable equality for `Except`, needed so witnesses can be settled by
`decide` on concrete pipeline runs. -/
instance {ε α : Type} [DecidableEq ε] [DecidableEq α] : DecidableEq (Except ε α) := fun a b =>
  match a, b with
  | Except.error e1, Except.error e2 =>
      if h : e1 = e2 then isTrue (congrArg Except.error h)
      else isFalse (fun hc => h (Except.error.inj hc))
  | Except.ok a1, Except.ok a2 =>
      if h : a1 = a2 then isTrue (congrArg Except.ok h)
      else isFalse (fun hc => h (Except.ok.inj hc))
  | Except.error _, Except.ok _ => isFalse (fun hc => Except.noConfusion hc)
  | Except.ok _, Except.error _ => isFalse (fun hc => Except.noConfusion hc)

/-- Lookup in a string-keyed mapping, modelling Python `dict.get(key, default)`.
Metadata dictionaries are modelled as association lists. -/
def dictGet (metadata : List (String × String)) (key dflt : String) : String :=
  match metadata.find? (fun p => p.1 == key) with
  | some p => p.2
  | none => dflt

/-- Model of `langchain.schema.Document`: page content plus a metadata dict
(only string-valued entries are relevant to the engine). -/
structure Document where
  page_content : String
  metadata : List (String × String)
deriving DecidableEq

/-- The characters Python strips: all Unicode whitespace, i.e. the set
accepted by CPython's unicode-whitespace test: the ASCII controls U+0009 to
U+000D, the information separators U+001C to U+001F, the space U+0020,
U+0085, U+00A0, U+1680, the range U+2000 to U+200A, U+2028, U+2029, U+202F,
U+205F and U+3000. -/
def pyIsSpace (c : Char) : Bool :=
  (9 ≤ c.toNat && c.toNat ≤ 13) || (28 ≤ c.toNat && c.toNat ≤ 32) ||
  c.toNat = 133 || c.toNat = 160 || c.toNat = 0x1680 ||
  (0x2000 ≤ c.toNat && c.toNat ≤ 0x200a) ||
  c.toNat = 0x2028 || c.toNat = 0x2029 || c.toNat = 0x202f || c.toNat = 0x205f ||
  c.toNat = 0x3000

/-- Model of Python `str.strip()`: drop leading and trailing Unicode
whitespace. -/
def pyStrip (s : String) : String :=
  String.mk (((s.data.dropWhile pyIsSpace).reverse.dropWhile pyIsSpace).reverse)

/-- The domain of values Python's `float()` can produce: a finite value
(modelled exactly as a rational, per the file-level float model), one of the
two infinities, or nan. -/
inductive PyNum where
  | finite (q : Rat)
  | inf
  | neginf
  | nan
deriving DecidableEq

/-- Parse the continuation of a Python digitpart after its first digit:
further digits, with a single underscore permitted only between two digits.
Accumulates the value and the digit count. -/
def digitpartAux : List Char → Nat → Nat → Option (Nat × Nat)
  | [], acc, n => some (acc, n)
  | '_' :: c :: rest, acc, n =>
      if c.isDigit then digitpartAux rest (acc * 10 + (c.toNat - 48)) (n + 1) else none
  | ['_'], _, _ => none
  | c :: rest, acc, n =>
      if c.isDigit then digitpartAux rest (acc * 10 + (c.toNat - 48)) (n + 1) else none

/-- Parse a complete Python digitpart, `digit (["_"] digit)*`: at least one
digit, underscores only between digits. Returns (value, digit count). -/
def digitpart (cs : List Char) : Option (Nat × Nat) :=
  match cs with
  | c :: rest => if c.isDigit then digitpartAux rest (c.toNat - 48) 1 else none
  | [] => none

/-- Parse a Python float mantissa (`pointfloat` or plain `digitpart`): an
optional integer digitpart, an optional dot followed by an optional
fractional digitpart, with at least one digit overall. -/
def mantissaVal (cs : List Char) : Option Rat :=
  let intCs := cs.takeWhile (fun c => c != '.')
  let rest := cs.dropWhile (fun c => c != '.')
  match rest with
  | [] => (digitpart intCs).map (fun p => (p.1 : Rat))
  | '.' :: fracCs =>
    if intCs.isEmpty then
      (digitpart fracCs).map (fun p => (p.1 : Rat) / ((10 : Rat) ^ p.2))
    else
      match digitpart intCs with
      | none => none
      | some ip =>
        if fracCs.isEmpty then some ((ip.1 : Rat))
        else (digitpart fracCs).map (fun p => (ip.1 : Rat) + (p.1 : Rat) / ((10 : Rat) ^ p.2))
  | _ => none

/-- Model of Python's builtin `float(str)` on a whitespace-stripped string:
an optional sign followed by a case-insensitive `inf`/`infinity`/`nan` word
or by a decimal mantissa with an optional `e`/`E` exponent; underscores are
accepted only between digits. Finite literals are represented exactly as
rationals: per the file-level float model, IEEE-754 rounding and the
overflow/underflow of astronomically scaled literals are not applied, and
only ASCII decimal digits are modelled. -/
def pyFloat (s : String) : Option PyNum :=
  let body : Bool × List Char :=
    match s.data with
    | '-' :: r => (true, r)
    | '+' :: r => (false, r)
    | r => (false, r)
  let lower := body.2.map Char.toLower
  if lower = ['i', 'n', 'f'] || lower = ['i', 'n', 'f', 'i', 'n', 'i', 't', 'y'] then
    some (if body.1 then PyNum.neginf else PyNum.inf)
  else if lower = ['n', 'a', 'n'] then
    some PyNum.nan
  else
    let mantCs := body.2.takeWhile (fun c => (c != 'e') && (c != 'E'))
    let expCs := body.2.dropWhile (fun c => (c != 'e') && (c != 'E'))
    match mantissaVal mantCs with
    | none => none
    | some m =>
      let signedM : Rat := if body.1 then -m else m
      match expCs with
      | [] => some (PyNum.finite signedM)
      | _ :: expBody =>
        let exp : Bool × List Char :=
          match expBody with
          | '-' :: r => (true, r)
          | '+' :: r => (false, r)
          | r => (false, r)
        match digitpart exp.2 with
        | none => none
        | some ep =>
          some (PyNum.finite (if exp.1 then signedM / ((10 : Rat) ^ ep.1)
                              else signedM * ((10 : Rat) ^ ep.1)))

/-! ## Graph RAG pipeline (`aviation-graph-rag/src/core/graph_rag.py`) -/

/-- Structured node produced by `_process_graph_results`:
`{'id': value.identity, 'labels': list(value.labels), 'properties': dict(value)}`. -/
structure GraphNode where
  id : Nat
  labels : List String
  properties : List (String × String)
deriving DecidableEq

/-- Structured relationship produced by `_process_graph_results`. -/
structure GraphRelationship where
  id : Nat
  type : String
  properties : List (String × String)
deriving DecidableEq

/-- The graph-context dict handed to `_fuse_context`: the keys
`nodes`/`relationships`/`paths` that `_process_graph_results` (success) and
the `_traverse_graph` failure fallback both populate. `paths` is always
empty in the source; its element type is opaque and modelled as `String`. -/
structure GraphContext where
  nodes : List GraphNode
  relationships : List GraphRelationship
  paths : List String
deriving DecidableEq

/-- The fused-context dict built by `_fuse_context`. -/
structure FusedContext where
  graph_nodes : List GraphNode
  graph_relationships : List GraphRelationship
  vector_documents : List String
  combined_context : String
deriving DecidableEq

/-- Per-node lines of `_combine_contexts`' graph section:
`f"- {node['labels'][0]}: {node['properties'].get('name', 'N/A')}"`.
Python raises `IndexError` on a node with an empty label list; that
partiality is modelled by `none`. -/
def node_lines : List GraphNode → Option (List String)
  | [] => some []
  | node :: rest =>
    match node.labels with
    | [] => none
    | l :: _ =>
      match node_lines rest with
      | none => none
      | some lines =>
          some (("- " ++ l ++ ": " ++ dictGet node.properties "name" "N/A") :: lines)

/-- Model of `_combine_contexts`: renders the graph section (when nodes are
present) followed by the vector section (when passages are present), joined
with newlines. Passages are excerpted to their first 200 codepoints with a
`"..."` suffix, as in `doc.page_content[:200]`. -/
def combine_contexts (graph_context : GraphContext) (vector_context : List Document) :
    Option String :=
  match node_lines graph_context.nodes with
  | none => none
  | some nlines =>
    let context_parts :=
      (if graph_context.nodes.isEmpty then [] else "Graph Information:" :: nlines) ++
      (if vector_context.isEmpty then []
       else "\nRelated Documents:" ::
         vector_context.map (fun doc => "- " ++ String.mk (doc.page_content.data.take 200) ++ "..."))
    some (String.intercalate "\n" context_parts)

/-- Model of `_fuse_context`: combines graph and vector information into the
fused dict. Note that no deduplication of any kind is performed here. -/
def fuse_context (graph_context : GraphContext) (vector_context : List Document) :
    Option FusedContext :=
  match combine_contexts graph_context vector_context with
  | none => none
  | some combined =>
      some { graph_nodes := graph_context.nodes,
             graph_relationships := graph_context.relationships,
             vector_documents := vector_context.map (fun d => d.page_content),
             combined_context := combined }

/-- The fixed message `_generate_response` returns when the generation call
raises. -/
def degraded_generation_message : String :=
  "I apologize, but I'm unable to process your request at the moment. Please try again later."

/-- Model of `_generate_response`: the prompt is rendered from the query, the
fused context and the user context and handed to the generation model; the
model call's outcome is the oracle input `llmOutcome`. On success the model's
text is returned unchanged; on failure the fixed apology is returned. The
function never short-circuits on an empty context. -/
def generate_response (query : String) (fused_context : FusedContext)
    (user_context : List (String × String)) (llmOutcome : Except String String) : String :=
  match query, fused_context, user_context, llmOutcome with
  | _, _, _, Except.ok response => response
  | _, _, _, Except.error _ => degraded_generation_message

/-- Model of Python's binary `min` on floats (kernel-computable, unlike the
lattice `min` bundled with Mathlib's order on `Rat`). -/
def ratMin (a b : Rat) : Rat := if a ≤ b then a else b

/-- Model of Python's binary `max` on floats. -/
def ratMax (a b : Rat) : Rat := if a ≤ b then b else a

/-- The computable `ratMin` agrees with Mathlib's `min` on `Rat`. -/
theorem ratMin_eq_min (a b : Rat) : ratMin a b = min a b := by
  rw [ratMin, min_def]

/-- The computable `ratMax` agrees with Mathlib's `max` on `Rat`. -/
theorem ratMax_eq_max (a b : Rat) : ratMax a b = max a b := by
  rw [ratMax, max_def]

/-- Model of `_assess_confidence`: coverage-based confidence
`max(0.1, min(0.9, (len(graph_nodes) + len(vector_documents)) / 10.0))`. -/
def assess_confidence (response query : String) (context : FusedContext) : Rat :=
  let graph_nodes := context.graph_nodes.length
  let vector_docs := context.vector_documents.length
  let confidence := ratMin (9/10 : Rat) (((graph_nodes : Rat) + (vector_docs : Rat)) / 10)
  ratMax (1/10 : Rat) confidence

/-- Extracted entity `{type, value}` (§3 of the spec's data model). -/
structure ExtractedEntity where
  type : String
  value : String
deriving DecidableEq

/-- Model of `_extract_entities`: the entity prompt is sent to the generation
model (outcome `chainOutcome`), but the returned JSON is never parsed — the
body sets `entities = []  # Placeholder` — and the exception handler also
returns `[]`. -/
def extract_entities (query : String) (chainOutcome : Except String String) :
    List ExtractedEntity :=
  match query, chainOutcome with
  | _, Except.ok _ => []
  | _, Except.error _ => []

/-- A graph context with no nodes, relationships or paths: what
`_traverse_graph` yields on failure, and `_process_graph_results` on an empty
record set. -/
def emptyGraphContext : GraphContext := { nodes := [], relationships := [], paths := [] }

/-- Two flight nodes — the records for query "What is the status of flight
AA123?" in the spec's concrete scenario. -/
def demoFlightGraph : GraphContext :=
  { nodes := [ { id := 1, labels := ["Flight"], properties := [("name", "AA123")] },
               { id := 2, labels := ["Flight"], properties := [("name", "AA123-leg2")] } ],
    relationships := [], paths := [] }

/-- Three vector passages for the same scenario. -/
def demoPassages : List Document :=
  [ { page_content := "AA123 departs JFK at 9am.", metadata := [("source", "schedule")] },
    { page_content := "AA123 arrives LAX at noon.", metadata := [("source", "schedule")] },
    { page_content := "AA123 is operated by a Boeing 737.", metadata := [("source", "fleet")] } ]

/-! ## Agent orchestrator (`onboarding-agentic-rag/src/core/orchestrator.py`) -/

/-- Model of `AgentContext` (declared in `agents/base_agent.py`, used here
only through the fields the orchestrator reads). -/
structure AgentContext where
  query : String
  user_id : String
  session_id : String
  user_profile : List (String × String)
  conversation_history : List String
deriving DecidableEq

/-- Model of `AgentResponse`. The metadata dict is modelled by the two keys
the orchestrator itself writes and reads (`priority`, `agent_role`); an
agent-produced response has both unset. -/
structure AgentResponse where
  content : String
  confidence : Rat
  sources : List Document
  processing_time : Rat
  metadata_priority : Option Rat := none
  metadata_agent_role : Option String := none
deriving DecidableEq

/-- The asyncio task created for one agent assignment: the name the runtime
gives the task (`asyncio.create_task` defaults to `"Task-N"` for the N-th
task created in the process) and the outcome of awaiting
`agent.execute(context)`. -/
structure AgentTask where
  task_name : String
  result : Except String AgentResponse
deriving DecidableEq

/-- Model of `await asyncio.gather(*tasks)` with the default
`return_exceptions=False`: if every task succeeds, all results are collected
in task order; if any task raises, `gather` re-raises that exception and all
sibling results are discarded (the first error in task order stands in for
the first exception to occur). -/
def gather_results : List (AgentTask × Rat) → Except String (List AgentResponse)
  | [] => Except.ok []
  | t :: rest =>
    match t.1.result with
    | Except.error e => Except.error e
    | Except.ok response =>
      match gather_results rest with
      | Except.error e => Except.error e
      | Except.ok responses => Except.ok (response :: responses)

/-- The per-response step of `_execute_agents`' collection loop: a response
with `confidence > 0.0` is kept and tagged with its assignment's priority
and its task's name (`response.metadata["priority"] = priority;
response.metadata["agent_role"] = task.get_name()`); any other response is
filtered out as an error response. -/
def tag_success (t : AgentTask × Rat) (response : AgentResponse) : Option AgentResponse :=
  if 0 < response.confidence then
    some { response with metadata_priority := some t.2,
                         metadata_agent_role := some t.1.task_name }
  else none

/-- Priority key used by the sort:
`x.metadata.get("priority", 0)`. -/
def resp_priority (r : AgentResponse) : Rat := r.metadata_priority.getD 0

/-- Stable descending insertion: the new element goes after every
already-placed element of greater-or-equal priority. -/
def insertByPriorityDesc (x : AgentResponse) : List AgentResponse → List AgentResponse
  | [] => [x]
  | y :: ys =>
    if resp_priority x < resp_priority y then y :: insertByPriorityDesc x ys
    else x :: y :: ys

/-- Model of
`successful_responses.sort(key=lambda x: x.metadata.get("priority", 0), reverse=True)`:
Python's `list.sort` is stable, and with `reverse=True` equal-key elements
keep their original relative order. -/
def sortByPriorityDesc : List AgentResponse → List AgentResponse
  | [] => []
  | x :: xs => insertByPriorityDesc x (sortByPriorityDesc xs)

/-- Model of `_execute_agents`: gather all agent results (fail-fast), keep
and tag the responses with positive confidence, and sort them stably by
descending priority. -/
def execute_agents (tasks : List (AgentTask × Rat)) : Except String (List AgentResponse) :=
  match gather_results tasks with
  | Except.error e => Except.error e
  | Except.ok results =>
      Except.ok (sortByPriorityDesc
        ((tasks.zip results).filterMap (fun tr => tag_success tr.1 tr.2)))

/-- The tagged positive-confidence responses in original assignment order:
what the collection loop of `_execute_agents` produces (before sorting)
whenever no task raises. -/
def taggedOk : List (AgentTask × Rat) → List AgentResponse
  | [] => []
  | t :: rest =>
    match t.1.result with
    | Except.ok response =>
      match tag_success t response with
      | some r => r :: taggedOk rest
      | none => taggedOk rest
    | Except.error _ => taggedOk rest

/-- An agent assignment whose execution completes (successfully or with a
confidence-0 error response, but without raising): agent identifier, the
response it returns, and the routing priority. -/
def okAgents (l : List ((String × AgentResponse) × Rat)) : List (String × Except String AgentResponse × Rat) :=
  l.map (fun s => (s.1.1, Except.ok s.1.2, s.2))

/-- Model of the task-creation loop of `_execute_agents`
(`task = asyncio.create_task(agent.execute(context))`): the runtime names
tasks `"Task-(counter+1)"`, `"Task-(counter+2)"`, ... where `counter` tasks
were created in the process before this loop. The agent's own identifier is
not consulted. -/
def createTasksAux (counter : Nat) : List (String × Except String AgentResponse × Rat) → List (AgentTask × Rat)
  | [] => []
  | a :: rest =>
      ({ task_name := "Task-" ++ toString (counter + 1), result := a.2.1 }, a.2.2) ::
        createTasksAux (counter + 1) rest

/-- Task creation starting from a process-wide task counter `n0`. -/
def createTasks (n0 : Nat) (assignments : List (String × Except String AgentResponse × Rat)) :
    List (AgentTask × Rat) :=
  createTasksAux n0 assignments

/-- The fixed degraded-mode message `_synthesize_responses` returns when no
agent responses survive. -/
def no_answer_message : String := "I'm unable to provide a comprehensive answer at this time."

/-- Model of `_synthesize_responses`: zero responses short-circuit to the
fixed message, a single response is passed through unchanged, and only with
two or more responses is the synthesis prompt rendered and the generation
model invoked (its outcome is the oracle input `llmOutcome`, which may
raise — there is no try/except in this method). -/
def synthesize_responses (query : String) (agent_responses : List AgentResponse)
    (context : AgentContext) (llmOutcome : Except String String) : Except String String :=
  match query, context, agent_responses with
  | _, _, [] => Except.ok no_answer_message
  | _, _, [r] => Except.ok r.content
  | _, _, _ => llmOutcome

/-- Model of `_assess_quality`: with no agent responses return `0.0` without
calling the model; otherwise invoke the quality chain (`chainOutcome`), and
on success parse `float(quality_score.strip())`, falling back to `0.5` on a
`ValueError`; any exception from the chain itself is caught and also yields
`0.5`. The parsed score is returned without clamping. -/
def assess_quality (query response : String) (agent_responses : List AgentResponse)
    (chainOutcome : Except String String) : PyNum :=
  match query, response, agent_responses with
  | _, _, [] => PyNum.finite 0
  | _, _, _ =>
    match chainOutcome with
    | Except.error _ => PyNum.finite (1/2)
    | Except.ok quality_score =>
      match pyFloat (pyStrip quality_score) with
      | some score => score
      | none => PyNum.finite (1/2)

/-- The unique identifier `_extract_sources` builds for a source:
`f"{source.page_content[:100]}_{source.metadata.get('source', 'unknown')}"`. -/
def source_id (source : Document) : String :=
  String.mk (source.page_content.data.take 100) ++ "_" ++ dictGet source.metadata "source" "unknown"

/-- Membership test of the `seen_sources` set (modelled as the list of
identifiers added so far). -/
def seenContains (seen : List String) (sid : String) : Bool :=
  seen.any (fun t => t = sid)

/-- The dedup loop of `_extract_sources`: walk the sources in order, keep
each whose identifier has not been seen, and record its identifier. -/
def dedupAux : List Document → List String → List Document
  | [], _ => []
  | source :: rest, seen_sources =>
    if seenContains seen_sources (source_id source) then dedupAux rest seen_sources
    else source :: dedupAux rest (source_id source :: seen_sources)

/-- Model of `_extract_sources`: iterate over every response's sources (a
single flattened pass, sharing one `seen_sources` set) and deduplicate by
`source_id`, keeping first-seen instances. -/
def extract_sources (agent_responses : List AgentResponse) : List Document :=
  dedupAux ((agent_responses.map (fun r => r.sources)).flatten) []

/-- The metadata dict built by `_generate_metadata`. -/
structure GeneratedMetadata where
  user_id : String
  session_id : String
  agent_count : Nat
  agent_roles : List String
  total_confidence : Rat
  average_confidence : Rat
  total_processing_time : Rat
  user_profile_keys : List String
  conversation_history_length : Nat
deriving DecidableEq

/-- The role recorded for a response:
`resp.metadata.get("agent_role", "unknown")`. -/
def resp_role (r : AgentResponse) : String := r.metadata_agent_role.getD "unknown"

/-- Model of `_generate_metadata`. -/
def generate_metadata (agent_responses : List AgentResponse) (context : AgentContext) :
    GeneratedMetadata :=
  { user_id := context.user_id,
    session_id := context.session_id,
    agent_count := agent_responses.length,
    agent_roles := agent_responses.map resp_role,
    total_confidence := (agent_responses.map (fun r => r.confidence)).sum,
    average_confidence :=
      if agent_responses.isEmpty then 0
      else (agent_responses.map (fun r => r.confidence)).sum / (agent_responses.length : Rat),
    total_processing_time := (agent_responses.map (fun r => r.processing_time)).sum,
    user_profile_keys := context.user_profile.map (fun p => p.1),
    conversation_history_length := context.conversation_history.length }

/-- The metadata field of an `OrchestrationResult`: the success path stores
the generated metadata dict, the failure path stores `{"error": str(e)}`. -/
inductive OrchMetadata where
  | ok (m : GeneratedMetadata)
  | error (msg : String)
deriving DecidableEq

/-- Model of the `OrchestrationResult` dataclass. -/
structure OrchestrationResult where
  final_response : String
  agent_responses : List AgentResponse
  confidence : PyNum
  sources : List Document
  metadata : OrchMetadata
  processing_time : Rat
  agent_sequence : List String
deriving DecidableEq

/-- The `agent_sequence` computed in `orchestrate_query`:
`[resp.metadata.get("agent_role", "unknown") for resp in agent_responses]`. -/
def agent_sequence_of (agent_responses : List AgentResponse) : List String :=
  agent_responses.map resp_role

/-- Oracle inputs of one orchestration call: the outcome of agent routing
(each assignment already carrying its task's runtime name and the outcome of
its `execute` call), the outcomes of the synthesis and quality generation
calls, and the measured wall-clock time. -/
structure OrchInputs where
  routing : Except String (List (AgentTask × Rat))
  synthOutcome : Except String String
  qualityOutcome : Except String String
  processing_time : Rat
deriving DecidableEq

/-- The degraded `OrchestrationResult` built by the `except` branch of
`orchestrate_query`. -/
def degradedResult (e : String) (processing_time : Rat) : OrchestrationResult :=
  { final_response := "I encountered an error while processing your request: " ++ e,
    agent_responses := [],
    confidence := PyNum.finite 0,
    sources := [],
    metadata := OrchMetadata.error e,
    processing_time := processing_time,
    agent_sequence := [] }

/-- The `try` body of `orchestrate_query` (steps 1–6): route, execute,
synthesize, assess, extract sources, generate metadata. The first failing
step's exception propagates (`_assess_quality`, `_extract_sources` and
`_generate_metadata` cannot raise). -/
def run_pipeline (context : AgentContext) (inp : OrchInputs) : Except String OrchestrationResult :=
  match inp.routing with
  | Except.error e => Except.error e
  | Except.ok agent_assignments =>
    match execute_agents agent_assignments with
    | Except.error e => Except.error e
    | Except.ok agent_responses =>
      match synthesize_responses context.query agent_responses context inp.synthOutcome with
      | Except.error e => Except.error e
      | Except.ok final_response =>
          Except.ok
            { final_response := final_response,
              agent_responses := agent_responses,
              confidence :=
                assess_quality context.query final_response agent_responses inp.qualityOutcome,
              sources := extract_sources agent_responses,
              metadata := OrchMetadata.ok (generate_metadata agent_responses context),
              processing_time := inp.processing_time,
              agent_sequence := agent_sequence_of agent_responses }

/-- Model of `orchestrate_query`: the try body wrapped in the single
top-level `except Exception`, which converts any failure into the degraded
result. The model is a total function — no failure escapes to the caller.
The metrics side effect is modelled separately by `orchestration_call`. -/
def orchestrate_query (context : AgentContext) (inp : OrchInputs) : OrchestrationResult :=
  match run_pipeline context inp with
  | Except.ok result => result
  | Except.error e => degradedResult e inp.processing_time

/-! ## Orchestration metrics -/

/-- The three metric counters of `AgentOrchestrator.__init__`. -/
structure OrchestratorMetrics where
  total_orchestrations : Nat
  successful_orchestrations : Nat
  average_processing_time : Rat
deriving DecidableEq

/-- Counters at process start. -/
def initial_metrics : OrchestratorMetrics :=
  { total_orchestrations := 0, successful_orchestrations := 0, average_processing_time := 0 }

/-- Model of `_update_metrics`: bump the success counter, then fold the new
processing time into the incremental mean
`avg = (avg * (total - 1) + new_time) / total` (guarded on `total > 0`). -/
def update_metrics (m : OrchestratorMetrics) (processing_time : Rat) (success : Bool) :
    OrchestratorMetrics :=
  let m1 := if success then
      { m with successful_orchestrations := m.successful_orchestrations + 1 }
    else m
  if 0 < m1.total_orchestrations then
    { m1 with average_processing_time :=
        (m1.average_processing_time * ((m1.total_orchestrations : Rat) - 1) + processing_time)
          / (m1.total_orchestrations : Rat) }
  else m1

/-- The full metrics effect of one `orchestrate_query` call: the attempt
counter is incremented on entry, and `_update_metrics(processing_time,
success)` runs on completion of either the try body or the except branch. -/
def orchestration_call (m : OrchestratorMetrics) (call : Rat × Bool) : OrchestratorMetrics :=
  update_metrics { m with total_orchestrations := m.total_orchestrations + 1 } call.1 call.2

/-- Metrics after a sequence of orchestration calls, each given as
(processing time, success flag), starting from process start. -/
def run_orchestrations (calls : List (Rat × Bool)) : OrchestratorMetrics :=
  calls.foldl orchestration_call initial_metrics

/-- The snapshot dict returned by `get_orchestrator_metrics`. -/
structure MetricsSnapshot where
  total_orchestrations : Nat
  successful_orchestrations : Nat
  success_rate : Rat
  average_processing_time : Rat
deriving DecidableEq

/-- Model of `get_orchestrator_metrics`. -/
def get_orchestrator_metrics (m : OrchestratorMetrics) : MetricsSnapshot :=
  { total_orchestrations := m.total_orchestrations,
    successful_orchestrations := m.successful_orchestrations,
    success_rate :=
      if 0 < m.total_orchestrations then
        (m.successful_orchestrations : Rat) / (m.total_orchestrations : Rat)
      else 0,
    average_processing_time := m.average_processing_time }

/-- C4: the coverage-based confidence is
`max(0.1, min(0.9, (graph_count + vector_count) / 10.0))` for every fused
context; with 2 graph records and 3 vector passages it is exactly `0.5`, and
with zero results from both sources it is exactly `0.1`. -/
theorem c4_coverage_confidence :
    (∀ (response query : String) (context : FusedContext),
      assess_confidence response query context =
        max (1/10 : Rat) (min (9/10 : Rat)
          (((context.graph_nodes.length : Rat) + (context.vector_documents.length : Rat)) / 10))) ∧
    ((fuse_context demoFlightGraph demoPassages).map
        (fun f => assess_confidence "resp" "What is the status of flight AA123?" f)
      = some (1/2 : Rat)) ∧
    ((fuse_context emptyGraphContext []).map
        (fun f => assess_confidence "resp" "any query" f)
      = some (1/10 : Rat)) := by
  refine ⟨fun r q c => ?_, by decide, by decide⟩
  simp only [assess_confidence, ratMin_eq_min, ratMax_eq_max]

/-- C10: the entity-extraction step returns the empty list regardless of the
generation model's output (the JSON is never parsed). -/
theorem c10_entities_always_empty :
    ∀ (query : String) (chainOutcome : Except String String),
      extract_entities query chainOutcome = [] := by
  intro _ o
  cases o <;> rfl

/-! ## Ordering lemmas for the priority sort -/

/-- Descending-priority order as a `Pairwise` predicate. -/
def sortedByPriorityDesc (l : List AgentResponse) : Prop :=
  l.Pairwise (fun a b => resp_priority b ≤ resp_priority a)

/-- Membership in an insertion comes from the inserted element or the list. -/
theorem mem_insertByPriorityDesc (z x : AgentResponse) (l : List AgentResponse)
    (h : z ∈ insertByPriorityDesc x l) : z = x ∨ z ∈ l := by
  induction l with
  | nil => simpa [insertByPriorityDesc] using h
  | cons y ys ih =>
    rw [insertByPriorityDesc] at h
    by_cases hxy : resp_priority x < resp_priority y
    · rw [if_pos hxy] at h
      rcases List.mem_cons.mp h with h | h
      · exact Or.inr (h ▸ List.mem_cons_self y ys)
      · rcases ih h with h | h
        · exact Or.inl h
        · exact Or.inr (List.mem_cons_of_mem y h)
    · rw [if_neg hxy] at h
      rcases List.mem_cons.mp h with h | h
      · exact Or.inl h
      · exact Or.inr h

/-- Insertion preserves descending order. -/
theorem insertByPriorityDesc_sorted (x : AgentResponse) (l : List AgentResponse)
    (h : sortedByPriorityDesc l) : sortedByPriorityDesc (insertByPriorityDesc x l) := by
  induction l with
  | nil => simp [insertByPriorityDesc, sortedByPriorityDesc]
  | cons y ys ih =>
    rw [sortedByPriorityDesc, List.pairwise_cons] at h
    obtain ⟨hy, hys⟩ := h
    rw [insertByPriorityDesc]
    by_cases hxy : resp_priority x < resp_priority y
    · rw [if_pos hxy, sortedByPriorityDesc, List.pairwise_cons]
      refine ⟨fun z hz => ?_, ih hys⟩
      rcases mem_insertByPriorityDesc z x ys hz with h | h
      · exact h ▸ le_of_lt hxy
      · exact hy z h
    · rw [if_neg hxy, sortedByPriorityDesc, List.pairwise_cons]
      refine ⟨fun z hz => ?_, List.Pairwise.cons hy hys⟩
      rcases List.mem_cons.mp hz with h | h
      · exact h ▸ le_of_not_lt hxy
      · exact le_trans (hy z h) (le_of_not_lt hxy)

/-- The sort produces a descending list. -/
theorem sortByPriorityDesc_sorted (l : List AgentResponse) :
    sortedByPriorityDesc (sortByPriorityDesc l) := by
  induction l with
  | nil => simp [sortByPriorityDesc, sortedByPriorityDesc]
  | cons x xs ih => exact insertByPriorityDesc_sorted x _ ih

/-- Insertion keeps every equal-priority class intact: the inserted element
lands in front of exactly its own class's earlier-sorted members and behind
none of them (it only passes elements of strictly greater priority). -/
theorem insertByPriorityDesc_filter (x : AgentResponse) (l : List AgentResponse) (k : Rat) :
    (insertByPriorityDesc x l).filter (fun r => decide (resp_priority r = k)) =
      if resp_priority x = k then
        x :: l.filter (fun r => decide (resp_priority r = k))
      else l.filter (fun r => decide (resp_priority r = k)) := by
  induction l with
  | nil => by_cases hx : resp_priority x = k <;> simp [insertByPriorityDesc, hx]
  | cons y ys ih =>
    rw [insertByPriorityDesc]
    by_cases hxy : resp_priority x < resp_priority y
    · rw [if_pos hxy]
      by_cases hx : resp_priority x = k
      · have hy : ¬ resp_priority y = k := by
          intro hyk
          rw [hx, ← hyk] at hxy
          exact lt_irrefl _ hxy
        simp [List.filter_cons, hy, ih, hx]
      · by_cases hyk : resp_priority y = k <;> simp [List.filter_cons, ih, hx, hyk]
    · rw [if_neg hxy]
      by_cases hx : resp_priority x = k <;> simp [List.filter_cons, hx]

/-- Stability of the sort, phrased per priority class: for every priority
`k`, the sublist of priority-`k` responses is preserved in its original
relative order. -/
theorem sortByPriorityDesc_filter (l : List AgentResponse) (k : Rat) :
    (sortByPriorityDesc l).filter (fun r => decide (resp_priority r = k)) =
      l.filter (fun r => decide (resp_priority r = k)) := by
  induction l with
  | nil => rfl
  | cons x xs ih =>
    rw [sortByPriorityDesc, insertByPriorityDesc_filter, ih]
    by_cases hx : resp_priority x = k <;> simp [List.filter_cons, hx]

/-- When no task raises, the collection loop over the gathered results is
exactly the tagged positive-confidence filter in assignment order. -/
theorem gather_results_ok_zip (tasks : List (AgentTask × Rat)) (results : List AgentResponse)
    (h : gather_results tasks = Except.ok results) :
    (tasks.zip results).filterMap (fun tr => tag_success tr.1 tr.2) = taggedOk tasks := by
  induction tasks generalizing results with
  | nil =>
    rw [gather_results] at h
    injection h with h
    subst h
    rfl
  | cons t ts ih =>
    rw [gather_results] at h
    cases ht : t.1.result with
    | error e => rw [ht] at h; cases h
    | ok r =>
      rw [ht] at h
      cases hg : gather_results ts with
      | error e => rw [hg] at h; cases h
      | ok rs =>
        rw [hg] at h
        injection h with h
        subst h
        rw [List.zip_cons_cons, List.filterMap_cons, taggedOk, ht]
        cases htag : tag_success t r <;> simp [htag, ih rs hg]

/-- Fault isolation for in-band failures: when every agent call completes
without raising, `_execute_agents` returns (no exception) the stably sorted,
tagged, positive-confidence responses. -/
theorem execute_agents_all_ok (tasks : List (AgentTask × Rat)) (results : List AgentResponse)
    (h : gather_results tasks = Except.ok results) :
    execute_agents tasks = Except.ok (sortByPriorityDesc (taggedOk tasks)) := by
  simp only [execute_agents, h]
  rw [gather_results_ok_zip tasks results h]

/-- Gathering the tasks of agents that all complete yields their responses
in assignment order, for every starting task counter. -/
theorem gather_createTasks_okAgents (l : List ((String × AgentResponse) × Rat)) :
    ∀ n0 : Nat, gather_results (createTasks n0 (okAgents l)) =
      Except.ok (l.map (fun s => s.1.2)) := by
  induction l with
  | nil => intro n0; rfl
  | cons s rest ih =>
    intro n0
    have ih2 := ih (n0 + 1)
    rw [createTasks] at ih2 ⊢
    rw [okAgents, List.map_cons, createTasksAux, gather_results]
    rw [okAgents] at ih2
    rw [ih2, List.map_cons]

/-- Response of the demo agent C (priority 0.5). -/
def respC : AgentResponse :=
  { content := "answer C", confidence := 4/5, sources := [], processing_time := 1 }

/-- Response of the demo agent A (priority 0.9). -/
def respA : AgentResponse :=
  { content := "answer A", confidence := 4/5, sources := [], processing_time := 1 }

/-- Response of the demo agent B (priority 0.9). -/
def respB : AgentResponse :=
  { content := "answer B", confidence := 4/5, sources := [], processing_time := 1 }

/-- Agents A(priority 0.9), B(priority 0.9), C(priority 0.5) assigned in
order [C, A, B], all completing successfully. -/
def demoAssignments : List ((String × AgentResponse) × Rat) :=
  [(("C", respC), 1/2), (("A", respA), 9/10), (("B", respB), 9/10)]

/-- C6 (counterexample): for the spec's scenario [C, A, B] the surviving
responses are ordered A, B, C as claimed, but `agent_sequence` records the
asyncio task names (`task.get_name()` of tasks created without an explicit
name, here as the first tasks of the process) — `["Task-2", "Task-3",
"Task-1"]` — not the agents' identifiers `["A", "B", "C"]`. -/
theorem c6_counterexample :
    (execute_agents (createTasks 0 (okAgents demoAssignments))).map agent_sequence_of =
      Except.ok ["Task-2", "Task-3", "Task-1"] ∧
    (execute_agents (createTasks 0 (okAgents demoAssignments))).map agent_sequence_of ≠
      Except.ok ["A", "B", "C"] := by
  constructor <;> decide

/-- C6 (amended): for every starting task counter and every list of agent
assignments that all complete, the coordinator returns the surviving
responses sorted by descending priority, stably — for each priority value
the responses of that priority keep their original assignment order — and
`agent_sequence` lists those responses' recorded roles (the task names) in
that order. -/
theorem c6_amended : ∀ (n0 : Nat) (l : List ((String × AgentResponse) × Rat)),
    ∃ out, execute_agents (createTasks n0 (okAgents l)) = Except.ok out ∧
      sortedByPriorityDesc out ∧
      (∀ k : Rat, out.filter (fun r => decide (resp_priority r = k)) =
        (taggedOk (createTasks n0 (okAgents l))).filter
          (fun r => decide (resp_priority r = k))) := by
  intro n0 l
  exact ⟨_, execute_agents_all_ok _ _ (gather_createTasks_okAgents l n0),
    sortByPriorityDesc_sorted _, fun k => sortByPriorityDesc_filter _ k⟩

/-- C5 (amended): in the agentic orchestrator, zero surviving responses
yield the fixed degraded-mode message without consulting the generation
model (the result is the same for every model outcome); in the graph
pipeline, `_generate_response` does consult the model even on an empty fused
context — it returns whatever the model call produces, and its fixed apology
appears only when the model call fails. -/
theorem c5_amended :
    (∀ (q : String) (ctx : AgentContext) (o : Except String String),
        synthesize_responses q [] ctx o = Except.ok no_answer_message) ∧
    (∀ (q : String) (f : FusedContext) (u : List (String × String)) (t : String),
        generate_response q f u (Except.ok t) = t) ∧
    (∀ (q : String) (f : FusedContext) (u : List (String × String)) (e : String),
        generate_response q f u (Except.error e) = degraded_generation_message) :=
  ⟨fun _ _ _ => rfl, fun _ _ _ _ => rfl, fun _ _ _ _ => rfl⟩

/-- C5 (counterexample): with both retrieval sources empty, the graph
pipeline's response generation still invokes the generation model: on the
fused context built from empty inputs it returns the model's text, which is
neither fixed degraded-mode message. -/
theorem c5_counterexample :
    ((fuse_context emptyGraphContext []).map
        (fun f => generate_response "What is the status of flight AA123?" f []
          (Except.ok "All nominal."))
      = some "All nominal.") ∧
    "All nominal." ≠ degraded_generation_message ∧
    "All nominal." ≠ no_answer_message := by
  refine ⟨by decide, by decide, by decide⟩

/-- Nothing is contained in the empty seen-set. -/
theorem seenContains_nil (sid : String) : seenContains [] sid = false := rfl

/-- Unfolding of seen-set membership over an insertion. -/
theorem seenContains_cons (a : String) (seen : List String) (sid : String) :
    seenContains (a :: seen) sid = (decide (a = sid) || seenContains seen sid) := by
  simp [seenContains, List.any_cons]

/-- For every identifier `k`, the dedup loop keeps exactly the first
occurrence with identifier `k` — or none at all if `k` was already seen. -/
theorem dedupAux_filter (docs : List Document) :
    ∀ (seen : List String) (k : String),
      (dedupAux docs seen).filter (fun d => decide (source_id d = k)) =
        if seenContains seen k then []
        else (docs.filter (fun d => decide (source_id d = k))).take 1 := by
  induction docs with
  | nil =>
    intro seen k
    by_cases hk : seenContains seen k = true <;> simp [dedupAux, hk]
  | cons d rest ih =>
    intro seen k
    rw [dedupAux]
    by_cases hd : seenContains seen (source_id d) = true
    · rw [if_pos hd, ih]
      by_cases hk : seenContains seen k = true
      · simp [hk]
      · have hdk : ¬ source_id d = k := fun h => hk (h ▸ hd)
        simp [hk, List.filter_cons, hdk]
    · rw [if_neg hd]
      by_cases hdk : source_id d = k
      · subst hdk
        have h1 : seenContains (source_id d :: seen) (source_id d) = true := by
          simp [seenContains_cons]
        simp [List.filter_cons, ih (source_id d :: seen) (source_id d), h1, hd]
      · simp [List.filter_cons, hdk, ih (source_id d :: seen) k, seenContains_cons]

/-- The dedup loop's output has pairwise distinct identifiers, none of which
was already seen. -/
theorem dedupAux_fresh (docs : List Document) :
    ∀ seen : List String,
      (dedupAux docs seen).Pairwise (fun a b => source_id a ≠ source_id b) ∧
      ∀ d ∈ dedupAux docs seen, seenContains seen (source_id d) = false := by
  induction docs with
  | nil => intro seen; simp [dedupAux]
  | cons d rest ih =>
    intro seen
    rw [dedupAux]
    by_cases hd : seenContains seen (source_id d) = true
    · rw [if_pos hd]; exact ih seen
    · rw [if_neg hd]
      obtain ⟨hpw, hmem⟩ := ih (source_id d :: seen)
      refine ⟨List.Pairwise.cons ?_ hpw, ?_⟩
      · intro z hz
        have hc := hmem z hz
        rw [seenContains_cons] at hc
        simp only [Bool.or_eq_false_iff, decide_eq_false_iff_not] at hc
        exact hc.1
      · intro z hz
        rcases List.mem_cons.mp hz with h | h
        · subst h
          rw [Bool.not_eq_true] at hd
          exact hd
        · have hc := hmem z h
          rw [seenContains_cons] at hc
          simp only [Bool.or_eq_false_iff, decide_eq_false_iff_not] at hc
          exact hc.2

/-- On a list whose identifiers are pairwise distinct and disjoint from the
seen-set, the dedup loop is the identity. -/
theorem dedupAux_noop (l : List Document) :
    ∀ seen : List String,
      l.Pairwise (fun a b => source_id a ≠ source_id b) →
      (∀ d ∈ l, seenContains seen (source_id d) = false) →
      dedupAux l seen = l := by
  induction l with
  | nil => intro seen _ _; rfl
  | cons d rest ih =>
    intro seen hpw hmem
    rw [List.pairwise_cons] at hpw
    rw [dedupAux, if_neg (by rw [hmem d (List.mem_cons_self d rest)]; simp)]
    congr 1
    apply ih (source_id d :: seen) hpw.2
    intro z hz
    rw [seenContains_cons]
    simp [hpw.1 z hz, hmem z (List.mem_cons_of_mem d hz)]

/-- Applying the dedup pass to the already-deduplicated source list changes
nothing. -/
theorem extract_sources_idempotent (agent_responses : List AgentResponse) :
    dedupAux (extract_sources agent_responses) [] = extract_sources agent_responses := by
  obtain ⟨hpw, _⟩ :=
    dedupAux_fresh ((agent_responses.map (fun r => r.sources)).flatten) ([] : List String)
  exact dedupAux_noop _ [] hpw (fun d _ => rfl)

/-- A 100-character content prefix shared by the two demo documents. -/
def dupPrefix : String := String.mk (List.replicate 100 'a')

/-- First demo document: collides with `demoDocY` on fingerprint and origin
but differs beyond the first 100 characters. -/
def demoDocX : Document :=
  { page_content := dupPrefix ++ "SUFFIX-ONE", metadata := [("source", "handbook")] }

/-- Second demo document, same `source_id` as `demoDocX`. -/
def demoDocY : Document :=
  { page_content := dupPrefix ++ "SUFFIX-TWO", metadata := [("source", "handbook")] }

/-- Response carrying the first demo document. -/
def demoRespX : AgentResponse :=
  { content := "x", confidence := 1/2, sources := [demoDocX], processing_time := 1 }

/-- Response carrying the second demo document. -/
def demoRespY : AgentResponse :=
  { content := "y", confidence := 1/2, sources := [demoDocY], processing_time := 1 }

/-- C9 (amended): the agentic pipeline's source extraction deduplicates by
content-prefix fingerprint plus source-metadata identifier, idempotently and
keeping the first-seen instance (for every identifier, the kept sublist is
the first occurrence); concretely, two responses carrying colliding
documents yield exactly the earlier document. The graph pipeline's fusion,
by contrast, performs no deduplication (see the counterexample). -/
theorem c9_dedup_first_seen :
    (∀ agent_responses : List AgentResponse,
      dedupAux (extract_sources agent_responses) [] = extract_sources agent_responses) ∧
    (∀ (docs : List Document) (k : String),
      (dedupAux docs []).filter (fun d => decide (source_id d = k)) =
        (docs.filter (fun d => decide (source_id d = k))).take 1) ∧
    (source_id demoDocX = source_id demoDocY ∧
      extract_sources [demoRespX, demoRespY] = [demoDocX]) := by
  refine ⟨extract_sources_idempotent, fun docs k => ?_, by decide, by decide⟩
  rw [dedupAux_filter docs [] k, seenContains_nil]
  rfl

/-- C9 (counterexample): the graph pipeline's `_fuse_context` keeps both of
two identical (hence colliding) passages — the fused output does not contain
exactly one such item. -/
theorem c9_counterexample :
    (fuse_context emptyGraphContext [demoDocX, demoDocX]).map
        (fun f => f.vector_documents) =
      some [demoDocX.page_content, demoDocX.page_content] ∧
    ¬ ((fuse_context emptyGraphContext [demoDocX, demoDocX]).map
        (fun f => f.vector_documents.length) = some 1) := by
  constructor <;> decide

/-! ## Orchestration entry-point claims -/

/-- C1: the orchestration entry point is a total function (no exception
reaches the caller — every failure of the try body is converted by the
single top-level handler), and on any internal failure the returned result
is degraded: zero confidence, the error description in metadata, and empty
agent responses and sources. -/
theorem c1_degraded_on_failure : ∀ (context : AgentContext) (inp : OrchInputs) (e : String),
    run_pipeline context inp = Except.error e →
    (orchestrate_query context inp).confidence = PyNum.finite 0 ∧
    (orchestrate_query context inp).metadata = OrchMetadata.error e ∧
    (orchestrate_query context inp).agent_responses = [] ∧
    (orchestrate_query context inp).sources = [] := by
  intro ctx inp e h
  rw [orchestrate_query, h]
  exact ⟨rfl, rfl, rfl, rfl⟩

/-- A concrete orchestration context. -/
def demoContext : AgentContext :=
  { query := "How do I enroll in benefits?", user_id := "u-1", session_id := "s-1",
    user_profile := [("role", "new-hire")], conversation_history := [] }

/-- Oracle inputs whose routing step fails. -/
def demoFailInputs : OrchInputs :=
  { routing := Except.error "agent registry unavailable",
    synthOutcome := Except.ok "unused",
    qualityOutcome := Except.ok "0.9",
    processing_time := 1 }

/-- C1 (witness): a failing routing step yields the degraded result. -/
theorem c1_degraded_on_failure_witness :
    run_pipeline demoContext demoFailInputs = Except.error "agent registry unavailable" ∧
    ((orchestrate_query demoContext demoFailInputs).confidence = PyNum.finite 0 ∧
      (orchestrate_query demoContext demoFailInputs).metadata =
        OrchMetadata.error "agent registry unavailable" ∧
      (orchestrate_query demoContext demoFailInputs).agent_responses = [] ∧
      (orchestrate_query demoContext demoFailInputs).sources = []) :=
  ⟨by decide,
    c1_degraded_on_failure demoContext demoFailInputs "agent registry unavailable" (by decide)⟩

/-- Closed form of one orchestration call's metric update: increment the
attempt counter, add the success bit, and fold the new time into the
incremental mean over the new attempt count. -/
theorem orchestration_call_eq (m : OrchestratorMetrics) (call : Rat × Bool) :
    orchestration_call m call =
      { total_orchestrations := m.total_orchestrations + 1,
        successful_orchestrations :=
          m.successful_orchestrations + (if call.2 then 1 else 0),
        average_processing_time :=
          (m.average_processing_time * (m.total_orchestrations : Rat) + call.1)
            / ((m.total_orchestrations : Rat) + 1) } := by
  cases hb : call.2 <;>
    simp [orchestration_call, update_metrics, hb, Nat.succ_pos,
      OrchestratorMetrics.mk.injEq]

/-- Running the metric fold from any starting state adds the number of
calls to the attempt counter, the number of successes to the success
counter, and keeps `average * attempts` equal to the accumulated time plus
the starting accumulation. -/
theorem foldl_orchestration_metrics (calls : List (Rat × Bool)) :
    ∀ m : OrchestratorMetrics,
      (calls.foldl orchestration_call m).total_orchestrations =
        m.total_orchestrations + calls.length ∧
      (calls.foldl orchestration_call m).successful_orchestrations =
        m.successful_orchestrations + (calls.filter (fun c => c.2)).length ∧
      (calls.foldl orchestration_call m).average_processing_time *
          ((m.total_orchestrations + calls.length : Nat) : Rat) =
        m.average_processing_time * (m.total_orchestrations : Rat) +
          (calls.map (fun c => c.1)).sum := by
  induction calls with
  | nil => intro m; simp
  | cons c cs ih =>
    intro m
    rw [List.foldl_cons, orchestration_call_eq]
    obtain ⟨h1, h2, h3⟩ := ih
      { total_orchestrations := m.total_orchestrations + 1,
        successful_orchestrations :=
          m.successful_orchestrations + (if c.2 then 1 else 0),
        average_processing_time :=
          (m.average_processing_time * (m.total_orchestrations : Rat) + c.1)
            / ((m.total_orchestrations : Rat) + 1) }
    dsimp only at h1 h2 h3
    have hne : ((m.total_orchestrations : Rat) + 1) ≠ 0 := by positivity
    refine ⟨?_, ?_, ?_⟩
    · rw [h1]; simp; omega
    · rw [h2, List.filter_cons]
      cases hb : c.2 <;> (simp [hb]; try omega)
    · have hlen : m.total_orchestrations + (c :: cs).length =
          (m.total_orchestrations + 1) + cs.length := by
        simp; omega
      rw [hlen, h3]
      push_cast
      rw [div_mul_cancel₀ _ hne]
      simp only [List.map_cons, List.sum_cons]
      ring

/-- C8: after any nonempty sequence of orchestration calls (successes or
failures), the snapshot's `success_rate` is exactly successes/attempts and
the incrementally maintained `average_processing_time` is exactly the
arithmetic mean of the recorded times. -/
theorem c8_metrics (calls : List (Rat × Bool)) (h : calls ≠ []) :
    (get_orchestrator_metrics (run_orchestrations calls)).total_orchestrations = calls.length ∧
    (get_orchestrator_metrics (run_orchestrations calls)).successful_orchestrations =
      (calls.filter (fun c => c.2)).length ∧
    (get_orchestrator_metrics (run_orchestrations calls)).success_rate =
      ((calls.filter (fun c => c.2)).length : Rat) / (calls.length : Rat) ∧
    (get_orchestrator_metrics (run_orchestrations calls)).average_processing_time =
      (calls.map (fun c => c.1)).sum / (calls.length : Rat) := by
  obtain ⟨h1, h2, h3⟩ := foldl_orchestration_metrics calls initial_metrics
  simp only [show initial_metrics.total_orchestrations = 0 from rfl,
      show initial_metrics.successful_orchestrations = 0 from rfl,
      show initial_metrics.average_processing_time = 0 from rfl,
      Nat.zero_add, Nat.cast_zero, zero_mul, zero_add] at h1 h2 h3
  have hpos : 0 < calls.length := List.length_pos.mpr h
  have hlenQ : ((calls.length : Nat) : Rat) ≠ 0 :=
    Nat.cast_ne_zero.mpr (Nat.pos_iff_ne_zero.mp hpos)
  refine ⟨?_, ?_, ?_, ?_⟩
  · rw [get_orchestrator_metrics, run_orchestrations]; exact h1
  · rw [get_orchestrator_metrics, run_orchestrations]; exact h2
  · rw [get_orchestrator_metrics, run_orchestrations]
    dsimp only
    rw [if_pos (by rw [h1]; exact hpos), h1, h2]
  · rw [get_orchestrator_metrics, run_orchestrations]
    dsimp only
    exact (eq_div_iff hlenQ).mpr h3

/-- Three orchestration calls: 2s success, 4s failure, 6s success. -/
def demoCalls : List (Rat × Bool) := [(2, true), (4, false), (6, true)]

/-- C8 (witness): for the three demo calls the snapshot reports 3 attempts,
2 successes, success rate 2/3, and mean latency 4. -/
theorem c8_metrics_witness :
    (demoCalls ≠ []) ∧
    ((get_orchestrator_metrics (run_orchestrations demoCalls)).total_orchestrations =
        demoCalls.length ∧
      (get_orchestrator_metrics (run_orchestrations demoCalls)).successful_orchestrations =
        (demoCalls.filter (fun c => c.2)).length ∧
      (get_orchestrator_metrics (run_orchestrations demoCalls)).success_rate =
        ((demoCalls.filter (fun c => c.2)).length : Rat) / (demoCalls.length : Rat) ∧
      (get_orchestrator_metrics (run_orchestrations demoCalls)).average_processing_time =
        (demoCalls.map (fun c => c.1)).sum / (demoCalls.length : Rat)) :=
  ⟨by decide, c8_metrics demoCalls (by decide)⟩
